import Mathlib

/-!
Shallow embedding of the tauri-benchmark-suite frontend engine boundary:
the composable in src/composables/useBenchmark.ts, the service wrapper and
error helper in src/services/tauri-api.ts, the Pinia store action in
src/stores/index.ts, and the event payload types in src/types.
Backend (Rust engine) behaviour that is absent from the sources is modelled
from the specification where a claim needs it, and marked as such.
Numbers carried by events are modelled as rationals; JavaScript dynamic
values reaching handleTauriError are modelled by an explicit JsValue type.
-/

/-- Dynamic JavaScript value, as far as handleTauriError can observe it:
a string, a number, a boolean, null, undefined, or an object that either
carries a message property with some further value or lacks one. -/
inductive JsValue where
  | str (s : String)
  | num (n : Int)
  | boolV (b : Bool)
  | nullV
  | undefV
  | objMsg (m : JsValue)
  | objNoMsg
deriving DecidableEq

/-- Truthiness of a JavaScript value: empty string, zero, false, null and
undefined are falsy, every other value is truthy. -/
def truthy : JsValue → Bool
  | .str s => !(s == "")
  | .num n => !(n == 0)
  | .boolV b => b
  | .nullV => false
  | .undefV => false
  | .objMsg _ => true
  | .objNoMsg => true

/-- Whether a JavaScript value is a string (the typeof check). -/
def JsValue.isStr : JsValue → Bool
  | .str _ => true
  | _ => false

/-- Result of reading the message property with optional chaining:
undefined on null, undefined and every non-object value, otherwise the
property value or undefined when absent. -/
def msgField : JsValue → JsValue
  | .objMsg m => m
  | _ => .undefV

/-- Embedding of handleTauriError from src/services/tauri-api.ts: return
the input when it is a string, the message property when that is truthy,
and the fixed fallback string otherwise. -/
def handleTauriError (e : JsValue) : JsValue :=
  match e with
  | .str s => .str s
  | _ => if truthy (msgField e) then msgField e else .str "未知错误"

/-- Embedding of the TestStatus enum from src/types. -/
inductive TestStatus where
  | Pending
  | Running
  | Completed
  | Failed
  | Cancelled
deriving DecidableEq

/-- Whether a status is terminal in the sense of the specification:
Completed, Failed and Cancelled. -/
def TestStatus.isTerminal : TestStatus → Bool
  | .Completed => true
  | .Failed => true
  | .Cancelled => true
  | _ => false

/-- Embedding of the WarningSeverity enum from src/types. -/
inductive WarningSeverity where
  | Low
  | Medium
  | High
  | Critical
deriving DecidableEq

/-- Embedding of the CpuTestResult record from src/types. -/
structure CpuTestResult where
  single_thread_score : Rat
  multi_thread_score : Rat
  floating_point_score : Rat
  average_temperature : Rat
  max_temperature : Rat
  test_duration : Rat
  operations_per_second : Rat
deriving DecidableEq

/-- Embedding of the MemoryTestResult record from src/types. -/
structure MemoryTestResult where
  sequential_read_speed : Rat
  sequential_write_speed : Rat
  random_access_speed : Rat
  latency : Rat
  memory_usage_peak : Rat
  error_rate : Rat
  test_duration : Rat
deriving DecidableEq

/-- Embedding of the StorageMetrics record from src/types. -/
structure StorageMetrics where
  throughput : Rat
  iops : Rat
  latency : Rat
deriving DecidableEq

/-- Embedding of the StorageTestResult record from src/types. -/
structure StorageTestResult where
  sequential_read : StorageMetrics
  sequential_write : StorageMetrics
  random_read : StorageMetrics
  random_write : StorageMetrics
  test_duration : Rat
  total_data_processed : Rat
deriving DecidableEq

/-- Embedding of the TestResults record from src/types; the immutable
system information snapshot field is not inspected by any modelled
operation and is left out of the record. -/
structure TestResults where
  timestamp : String
  cpuResults : Option CpuTestResult
  memoryResults : Option MemoryTestResult
  storageResults : Option StorageTestResult
  overallScore : Rat
deriving DecidableEq

/-- Embedding of the BenchmarkProgress event payload from src/types. -/
structure BenchmarkProgress where
  session_id : String
  current_test : String
  overall_progress : Rat
  test_progress : Rat
  message : String
  estimated_time_remaining : Option Rat
deriving DecidableEq

/-- Embedding of the SystemMonitoringData payload from src/types. -/
structure SystemMonitoringData where
  cpu_usage : Rat
  memory_usage : Rat
  temperature : Option Rat
  timestamp : String
deriving DecidableEq

/-- Embedding of the RealTimePerformanceData payload from src/types;
the metrics map is modelled as an association list. -/
structure RealTimePerformanceData where
  session_id : String
  test_type : String
  metrics : List (String × Rat)
  timestamp : String
deriving DecidableEq

/-- Embedding of the TestWarningEvent payload from src/types. -/
structure TestWarningEvent where
  session_id : String
  test_type : String
  warning_type : String
  message : String
  severity : WarningSeverity
deriving DecidableEq

/-- Embedding of the TestCompleteEvent payload from src/types; the untyped
optional result field is modelled as an optional dynamic value. -/
structure TestCompleteEvent where
  session_id : String
  test_type : String
  success : Bool
  result : Option JsValue
  error : Option String
deriving DecidableEq

/-- Embedding of the BenchmarkSuiteCompleteEvent payload from src/types. -/
structure BenchmarkSuiteCompleteEvent where
  session_id : String
  success : Bool
  results : Option TestResults
  error : Option String
deriving DecidableEq

/-- Progress record of the composable, mirroring the reactive progress
object in src/composables/useBenchmark.ts. -/
structure ProgressState where
  overall : Rat
  current : Rat
  currentTest : String
  message : String
  estimatedTimeRemaining : Option Rat
deriving DecidableEq

/-- Reactive state of the useBenchmark composable, restricted to the refs
that the modelled operations and event handlers read or write. -/
structure UseBenchmarkState where
  currentSession : Option String
  testStatus : TestStatus
  testResults : Option TestResults
  error : Option JsValue
  progress : ProgressState
  monitoringData : Option SystemMonitoringData
  performanceData : List RealTimePerformanceData
  warnings : List TestWarningEvent
  isLoading : Bool
deriving DecidableEq

/-- JavaScript string defaulting with the or operator: an absent or empty
string falls through to the default. -/
def jsOrStr (o : Option String) (d : String) : String :=
  match o with
  | some s => if s = "" then d else s
  | none => d

/-- JavaScript defaulting of an optional number against null: zero is
falsy and becomes null, any other present value is kept. -/
def jsOrNullNum : Option Rat → Option Rat
  | some v => if v = 0 then none else some v
  | none => none

/-- Truthiness of an optional string: present and non-empty. -/
def jsTruthyStr : Option String → Bool
  | some s => !(s == "")
  | none => false

/-- Handler registered for benchmark-progress events in
setupEventListeners: on a matching session id, copy the payload fields
into the progress record, defaulting the estimated remaining time. -/
def handleBenchmarkProgress (s : UseBenchmarkState) (d : BenchmarkProgress) :
    UseBenchmarkState :=
  if s.currentSession = some d.session_id then
    { s with progress :=
      { overall := d.overall_progress
        current := d.test_progress
        currentTest := d.current_test
        message := d.message
        estimatedTimeRemaining := jsOrNullNum d.estimated_time_remaining } }
  else s

/-- Handler registered for system-monitoring events: store the payload
unconditionally. -/
def handleSystemMonitoring (s : UseBenchmarkState) (d : SystemMonitoringData) :
    UseBenchmarkState :=
  { s with monitoringData := some d }

/-- Handler registered for real-time-performance events: on a matching
session id, append the payload and keep only the last 100 entries. -/
def handleRealTimePerformance (s : UseBenchmarkState)
    (d : RealTimePerformanceData) : UseBenchmarkState :=
  if s.currentSession = some d.session_id then
    let l := s.performanceData ++ [d]
    if 100 < l.length then { s with performanceData := l.drop (l.length - 100) }
    else { s with performanceData := l }
  else s

/-- Handler registered for test-warning events: on a matching session id,
append the warning. -/
def handleTestWarning (s : UseBenchmarkState) (d : TestWarningEvent) :
    UseBenchmarkState :=
  if s.currentSession = some d.session_id then
    { s with warnings := s.warnings ++ [d] }
  else s

/-- Handler registered for test-complete events: on a matching session id
and an unsuccessful payload, record the error message with its fallback
and set the status to Failed; successful payloads change nothing. -/
def handleTestComplete (s : UseBenchmarkState) (d : TestCompleteEvent) :
    UseBenchmarkState :=
  if s.currentSession = some d.session_id then
    if d.success then s
    else { s with error := some (.str (jsOrStr d.error "测试失败")),
                  testStatus := .Failed }
  else s

/-- Handler registered for benchmark-complete events: on a matching
session id, either store the results and set Completed when the payload is
successful and carries results, or record the error message with its
fallback and set Failed. -/
def handleBenchmarkComplete (s : UseBenchmarkState)
    (d : BenchmarkSuiteCompleteEvent) : UseBenchmarkState :=
  if s.currentSession = some d.session_id then
    if d.success && d.results.isSome then
      { s with testResults := d.results, testStatus := .Completed }
    else { s with error := some (.str (jsOrStr d.error "测试套件失败")),
                  testStatus := .Failed }
  else s

/-- Handler registered for test-error events: on a matching session id,
record the error message with its own fallback and set Failed. -/
def handleTestError (s : UseBenchmarkState) (d : TestCompleteEvent) :
    UseBenchmarkState :=
  if s.currentSession = some d.session_id then
    { s with error := some (.str (jsOrStr d.error "测试出现错误")),
             testStatus := .Failed }
  else s

/-- Union of the event payloads the composable subscribes to in
setupEventListeners. -/
inductive FrontEvent where
  | progress (d : BenchmarkProgress)
  | monitoring (d : SystemMonitoringData)
  | realtime (d : RealTimePerformanceData)
  | warning (d : TestWarningEvent)
  | testComplete (d : TestCompleteEvent)
  | benchmarkComplete (d : BenchmarkSuiteCompleteEvent)
  | testError (d : TestCompleteEvent)
deriving DecidableEq

/-- Dispatch of one received event to the handler registered for its
channel in setupEventListeners. -/
def handleEvent (s : UseBenchmarkState) : FrontEvent → UseBenchmarkState
  | .progress d => handleBenchmarkProgress s d
  | .monitoring d => handleSystemMonitoring s d
  | .realtime d => handleRealTimePerformance s d
  | .warning d => handleTestWarning s d
  | .testComplete d => handleTestComplete s d
  | .benchmarkComplete d => handleBenchmarkComplete s d
  | .testError d => handleTestError s d

namespace TauriApiService

/-- Embedding of TauriApiService.cancelBenchmark: the method returns the
outcome of the invoked backend command unchanged, so a rejection of the
command is a rejection of the call. -/
def cancelBenchmark (invokeResult : Except JsValue Unit) : Except JsValue Unit :=
  invokeResult

/-- Embedding of TauriApiService.pauseBenchmark: passes the outcome of
the backend command through to its caller. -/
def pauseBenchmark (invokeResult : Except JsValue Unit) : Except JsValue Unit :=
  invokeResult

/-- Embedding of TauriApiService.resumeBenchmark: passes the outcome of
the backend command through to its caller. -/
def resumeBenchmark (invokeResult : Except JsValue Unit) : Except JsValue Unit :=
  invokeResult

/-- Embedding of TauriApiService.getTestStatus: passes the outcome of the
backend command through to its caller. -/
def getTestStatus (invokeResult : Except JsValue TestStatus) :
    Except JsValue TestStatus :=
  invokeResult

end TauriApiService

namespace UseBenchmark

/-- Embedding of the cleanup function of the composable: drop the session,
reset status, results, error, progress and the collected event buffers.
The listener deregistration has no effect on the modelled state. The
second component reports a thrown exception; cleanup never throws. -/
def cleanup (s : UseBenchmarkState) : UseBenchmarkState :=
  { s with currentSession := none
           testStatus := .Pending
           testResults := none
           error := none
           progress := { overall := 0, current := 0, currentTest := "",
                         message := "", estimatedTimeRemaining := none }
           performanceData := []
           warnings := [] }

/-- Embedding of cancelBenchmark from the composable, parametrised by the
outcome of the invoked backend command. With no current session it
returns at once; on a successful command it sets the status to Cancelled;
on a failing command it stores the converted error. The second component
is the exception the call throws, which is always none because the catch
block swallows the failure. -/
def cancelBenchmark (s : UseBenchmarkState) (invokeResult : Except JsValue Unit) :
    UseBenchmarkState × Option JsValue :=
  match s.currentSession with
  | none => (s, none)
  | some _ =>
    match invokeResult with
    | .ok _ => ({ s with testStatus := .Cancelled }, none)
    | .error e => ({ s with error := some (handleTauriError e) }, none)

/-- Embedding of pauseBenchmark from the composable: no state change on
success, stored converted error on failure, and never a thrown
exception. -/
def pauseBenchmark (s : UseBenchmarkState) (invokeResult : Except JsValue Unit) :
    UseBenchmarkState × Option JsValue :=
  match s.currentSession with
  | none => (s, none)
  | some _ =>
    match invokeResult with
    | .ok _ => (s, none)
    | .error e => ({ s with error := some (handleTauriError e) }, none)

/-- Embedding of resumeBenchmark from the composable: identical shape to
pauseBenchmark. -/
def resumeBenchmark (s : UseBenchmarkState) (invokeResult : Except JsValue Unit) :
    UseBenchmarkState × Option JsValue :=
  match s.currentSession with
  | none => (s, none)
  | some _ =>
    match invokeResult with
    | .ok _ => (s, none)
    | .error e => ({ s with error := some (handleTauriError e) }, none)

/-- Embedding of getTestStatus from the composable: the target session is
the argument when truthy, else the current session; with no truthy target
the call returns nothing; on success the status ref is updated only when
the target is the current session and the status is returned; on failure
the converted error is stored. The middle component is the thrown
exception, always none. -/
def getTestStatus (s : UseBenchmarkState) (sessionIdArg : Option String)
    (invokeResult : Except JsValue TestStatus) :
    UseBenchmarkState × Option JsValue × Option TestStatus :=
  let target := if jsTruthyStr sessionIdArg then sessionIdArg else s.currentSession
  if jsTruthyStr target then
    match target, invokeResult with
    | some t, .ok st =>
      (if s.currentSession = some t then { s with testStatus := st } else s,
       none, some st)
    | some _, .error e => ({ s with error := some (handleTauriError e) }, none, none)
    | none, _ => (s, none, none)
  else (s, none, none)

/-- Embedding of startBenchmarkSuite from the composable: on a successful
command the new session id is stored, the status becomes Running, error is
cleared and progress and buffers reset, except that the estimated
remaining time field is not reset by the source; on a failing command the
converted error is stored and the same error is rethrown to the caller,
reported in the middle component. -/
def startBenchmarkSuite (s : UseBenchmarkState)
    (invokeResult : Except JsValue String) :
    UseBenchmarkState × Option JsValue × Option String :=
  match invokeResult with
  | .ok sid =>
    ({ s with isLoading := false
              error := none
              currentSession := some sid
              testStatus := .Running
              progress := { overall := 0, current := 0, currentTest := "",
                            message := "正在启动测试...",
                            estimatedTimeRemaining :=
                              s.progress.estimatedTimeRemaining }
              performanceData := []
              warnings := [] }, none, some sid)
  | .error e =>
    ({ s with isLoading := false, error := some (handleTauriError e) }, some e, none)

end UseBenchmark

/-- Events that can write the testStatus ref when dispatched against a
state: a matching unsuccessful test-complete, a matching
benchmark-complete, and a matching test-error. -/
def statusAffectingEvent (sid : Option String) : FrontEvent → Bool
  | .testComplete d => decide (sid = some d.session_id) && !d.success
  | .benchmarkComplete d => decide (sid = some d.session_id)
  | .testError d => decide (sid = some d.session_id)
  | _ => false

/-- Last n entries of a list, mirroring a slice with negative start. -/
def lastN {α : Type} (n : Nat) (l : List α) : List α :=
  l.drop (l.length - n)

/-- Overall progress values of the benchmark-progress events of a stream
that match a given current session, in delivery order. -/
def matchingOverall (sid : Option String) (es : List FrontEvent) : List Rat :=
  es.filterMap fun e =>
    match e with
    | .progress d => if sid = some d.session_id then some d.overall_progress else none
    | _ => none

/-- Outcome of one enabled subsystem inside a suite run: its reported test
type, whether it succeeded, and its error message when it failed. -/
structure SubsystemOutcome where
  testType : String
  success : Bool
  errMsg : Option String
deriving DecidableEq

/-- Modelled from the spec: the SessionManager suite aggregation, which is
part of the Rust engine absent from the sources. Per the failure-handling
design, every enabled subsystem runs and its outcome is recorded and
announced by a test-complete event, a single failure does not abort the
suite, and the suite-complete event is emitted after all results with
success exactly when not every enabled subsystem failed, carrying results
on success and an error message otherwise. -/
def suiteEvents (sid : String) (outcomes : List SubsystemOutcome)
    (r : TestResults) : List FrontEvent :=
  (outcomes.map fun o =>
    FrontEvent.testComplete
      { session_id := sid, test_type := o.testType, success := o.success,
        result := none, error := o.errMsg })
  ++ [FrontEvent.benchmarkComplete
        { session_id := sid
          success := outcomes.any fun o => o.success
          results := if outcomes.any (fun o => o.success) then some r else none
          error := if outcomes.any (fun o => o.success) then none
                   else some "所有子系统均失败" }]

/-- Modelled from the spec: the state of one engine-side runner, absent
from the sources, executing a session workload in fixed checkpoint
slices with a cooperative cancellation flag. -/
structure RunnerState where
  status : TestStatus
  cancelRequested : Bool
  remainingSlices : Nat
deriving DecidableEq

/-- Modelled from the spec: the cancel operation only raises the
cooperative cancellation flag; it does not itself change the status. -/
def signalCancel (r : RunnerState) : RunnerState :=
  { r with cancelRequested := true }

/-- Modelled from the spec: one checkpoint slice of a running runner. The
cancellation flag is observed at the checkpoint; when set the runner
unwinds to Cancelled, otherwise it performs one slice of work and
completes when no work remains. Non-running runners do not step. -/
def runnerStep (r : RunnerState) : RunnerState :=
  if r.status = .Running then
    if r.cancelRequested then { r with status := .Cancelled }
    else if r.remainingSlices = 0 then { r with status := .Completed }
    else { r with remainingSlices := r.remainingSlices - 1 }
  else r

/-- Subsystem section of the benchmark configuration held by the Pinia
store; fields are optional to reflect that a section object supplied to
the update action at run time may omit fields. -/
structure CpuTestSection where
  enabled : Option Bool
  duration : Option Rat
  threadCount : Option Rat
deriving DecidableEq

/-- Memory section of the stored benchmark configuration, with optional
fields for the same reason as the CPU section. -/
structure MemoryTestSection where
  enabled : Option Bool
  bufferSize : Option Rat
  iterations : Option Rat
deriving DecidableEq

/-- Storage section of the stored benchmark configuration, with optional
fields for the same reason as the CPU section. -/
structure StorageTestSection where
  enabled : Option Bool
  fileSize : Option Rat
  blockSize : Option Rat
deriving DecidableEq

/-- Benchmark configuration held by the store: the three subsystem
sections. -/
structure BenchmarkConfigState where
  cpuTest : CpuTestSection
  memoryTest : MemoryTestSection
  storageTest : StorageTestSection
deriving DecidableEq

/-- Argument of the updateConfig store action: each top-level section may
be absent. -/
structure PartialBenchmarkConfig where
  cpuTest : Option CpuTestSection
  memoryTest : Option MemoryTestSection
  storageTest : Option StorageTestSection
deriving DecidableEq

/-- Embedding of the updateConfig action of the Pinia store: a top-level
object spread of the new partial configuration over the stored one, so a
supplied section replaces the stored section wholesale and an absent
section leaves the stored section untouched. -/
def updateConfig (c : BenchmarkConfigState) (n : PartialBenchmarkConfig) :
    BenchmarkConfigState :=
  { cpuTest := n.cpuTest.getD c.cpuTest
    memoryTest := n.memoryTest.getD c.memoryTest
    storageTest := n.storageTest.getD c.storageTest }

/-- Neutral composable state used by concrete instantiations. -/
def baseState : UseBenchmarkState :=
  { currentSession := none
    testStatus := .Pending
    testResults := none
    error := none
    progress := { overall := 0, current := 0, currentTest := "",
                  message := "", estimatedTimeRemaining := none }
    monitoringData := none
    performanceData := []
    warnings := []
    isLoading := false }

/-- Concrete state with a current session whose displayed status is
Completed. -/
def exCompleted : UseBenchmarkState :=
  { baseState with currentSession := some "s1", testStatus := .Completed }

/-- Concrete state with a current session whose displayed status is
Running. -/
def exRunning : UseBenchmarkState :=
  { baseState with currentSession := some "s1", testStatus := .Running }

/-- Concrete state with a current session whose displayed status is
Cancelled. -/
def exCancelled : UseBenchmarkState :=
  { baseState with currentSession := some "s1", testStatus := .Cancelled }

/-- Concrete unsuccessful test-complete payload for the current session,
with no error message. -/
def failPayload : TestCompleteEvent :=
  { session_id := "s1", test_type := "cpu", success := false,
    result := none, error := none }

/-- Concrete unsuccessful test-complete payload carrying a non-empty
error message. -/
def failPayloadMsg : TestCompleteEvent :=
  { session_id := "s1", test_type := "memory", success := false,
    result := none, error := some "内存测试失败" }

/-- Concrete monitoring payload. -/
def monSample : SystemMonitoringData :=
  { cpu_usage := 10, memory_usage := 20, temperature := none,
    timestamp := "t1" }

/-- Concrete real-time performance payload for the current session. -/
def perfSample : RealTimePerformanceData :=
  { session_id := "s1", test_type := "cpu", metrics := [], timestamp := "t0" }

/-- Concrete progress payload at ten percent overall. -/
def progSample1 : BenchmarkProgress :=
  { session_id := "s1", current_test := "cpu", overall_progress := 10,
    test_progress := 30, message := "运行中", estimated_time_remaining := none }

/-- Concrete progress payload at fifty percent overall, as delivered after
a pause and resume. -/
def progSample2 : BenchmarkProgress :=
  { session_id := "s1", current_test := "memory", overall_progress := 50,
    test_progress := 20, message := "运行中", estimated_time_remaining := some 30 }

/-- Concrete rejection value carried by a failing session-control
command. -/
def notFoundErr : JsValue :=
  JsValue.str "SessionNotFoundError: session not found"

/-- Concrete suite outcome list in which the CPU subsystem failed and the
memory subsystem succeeded. -/
def outcomesSample : List SubsystemOutcome :=
  [{ testType := "cpu", success := false, errMsg := some "CPU测试失败" },
   { testType := "memory", success := true, errMsg := none }]

/-- Concrete aggregated suite results record. -/
def resultsSample : TestResults :=
  { timestamp := "t2", cpuResults := none, memoryResults := none,
    storageResults := none, overallScore := 0 }

/-- Concrete runner that is running, has work left and has not been asked
to cancel. -/
def runningRunner : RunnerState :=
  { status := .Running, cancelRequested := false, remainingSlices := 5 }

/-- Stored configuration equal to the default state of the Pinia store. -/
def storeCfg : BenchmarkConfigState :=
  { cpuTest := { enabled := some true, duration := some 60, threadCount := some 0 }
    memoryTest := { enabled := some true, bufferSize := some 1024,
                    iterations := some 100 }
    storageTest := { enabled := some true, fileSize := some 1024,
                     blockSize := some 4 } }

/-- Partial configuration supplying only a CPU section that itself omits
the duration field. -/
def cfgPatch : PartialBenchmarkConfig :=
  { cpuTest := some { enabled := some true, duration := none,
                      threadCount := some 4 }
    memoryTest := none
    storageTest := none }

/-! Helper lemmas about the event dispatch. -/

/-- Event handling never changes the current session ref. -/
theorem handleEvent_currentSession (s : UseBenchmarkState) (e : FrontEvent) :
    (handleEvent s e).currentSession = s.currentSession := by
  cases e <;>
    simp only [handleEvent, handleBenchmarkProgress, handleSystemMonitoring,
      handleRealTimePerformance, handleTestWarning, handleTestComplete,
      handleBenchmarkComplete, handleTestError] <;>
    (repeat' split) <;> rfl

/-- Folding a stream of events never changes the current session ref. -/
theorem foldl_handleEvent_currentSession (es : List FrontEvent)
    (s : UseBenchmarkState) :
    (es.foldl handleEvent s).currentSession = s.currentSession := by
  induction es generalizing s with
  | nil => rfl
  | cons e es ih =>
      rw [List.foldl_cons, ih, handleEvent_currentSession]

/-- Events that are not status-affecting for the current session leave the
status ref unchanged. -/
theorem handleEvent_status_not_affecting (s : UseBenchmarkState)
    (e : FrontEvent) (h : statusAffectingEvent s.currentSession e = false) :
    (handleEvent s e).testStatus = s.testStatus := by
  cases e with
  | progress d =>
      simp only [handleEvent, handleBenchmarkProgress]
      split <;> rfl
  | monitoring d => rfl
  | realtime d =>
      simp only [handleEvent, handleRealTimePerformance]
      (repeat' split) <;> rfl
  | warning d =>
      simp only [handleEvent, handleTestWarning]
      split <;> rfl
  | testComplete d =>
      simp only [statusAffectingEvent, Bool.and_eq_false_iff,
        decide_eq_false_iff_not, Bool.not_eq_false'] at h
      simp only [handleEvent, handleTestComplete]
      rcases h with h | h
      · rw [if_neg h]
      · (repeat' split) <;> simp_all
  | benchmarkComplete d =>
      simp only [statusAffectingEvent, decide_eq_false_iff_not] at h
      simp only [handleEvent, handleBenchmarkComplete]
      rw [if_neg h]
  | testError d =>
      simp only [statusAffectingEvent, decide_eq_false_iff_not] at h
      simp only [handleEvent, handleTestError]
      rw [if_neg h]

/-- Overall progress after one event: a matching progress event installs
the value carried by the payload, every other event leaves the recorded
overall progress unchanged. -/
theorem handleEvent_overall (s : UseBenchmarkState) (e : FrontEvent) :
    (handleEvent s e).progress.overall
      = match e with
        | .progress d =>
            if s.currentSession = some d.session_id then d.overall_progress
            else s.progress.overall
        | _ => s.progress.overall := by
  cases e <;>
    simp only [handleEvent, handleBenchmarkProgress, handleSystemMonitoring,
      handleRealTimePerformance, handleTestWarning, handleTestComplete,
      handleBenchmarkComplete, handleTestError] <;>
    (repeat' split) <;> rfl

/-- Head of a scan over the event stream is the initial state. -/
theorem scanl_handleEvent_head (es : List FrontEvent) (s : UseBenchmarkState) :
    (List.scanl handleEvent s es).head? = some s := by
  cases es <;> simp [List.scanl]

/-! Theorems settling the claims. -/

/-- C10. The claim states handleTauriError returns a string for every
input; it does not: an object whose message property is a truthy
non-string is returned as is, here the number 42. -/
theorem c10_nonstring_message_counterexample :
    handleTauriError (JsValue.objMsg (JsValue.num 42)) = JsValue.num 42
    ∧ (handleTauriError (JsValue.objMsg (JsValue.num 42))).isStr = false := by
  decide

/-- C10 amended. handleTauriError is total and never throws: it returns
the input itself when the input is a string, the message property when
that is truthy, and the fixed fallback string otherwise, including on null
and undefined; the result is a string exactly when the input is a string,
the message is a string, or the message is falsy so that the fallback is
produced. -/
theorem c10_handle_tauri_error_amended (e : JsValue) :
    handleTauriError e
      = cond e.isStr e
          (cond (truthy (msgField e)) (msgField e) (JsValue.str "未知错误"))
    ∧ (handleTauriError e).isStr
      = (e.isStr || (msgField e).isStr || !truthy (msgField e)) := by
  cases e with
  | str s => simp [handleTauriError, JsValue.isStr, msgField, truthy]
  | num n =>
      simp [handleTauriError, JsValue.isStr, msgField, truthy]
  | boolV b =>
      simp [handleTauriError, JsValue.isStr, msgField, truthy]
  | nullV => simp [handleTauriError, JsValue.isStr, msgField, truthy]
  | undefV => simp [handleTauriError, JsValue.isStr, msgField, truthy]
  | objNoMsg => simp [handleTauriError, JsValue.isStr, msgField, truthy]
  | objMsg m =>
      cases hm : truthy m <;>
        simp [handleTauriError, JsValue.isStr, msgField, hm]

/-- C9. The updateConfig store action is a shallow top-level merge: a
section absent from the argument is kept exactly as stored, a supplied
section replaces the stored one wholesale, and a field omitted inside a
supplied section is dropped rather than preserved. -/
theorem c9_update_config_shallow_merge (c : BenchmarkConfigState)
    (n : PartialBenchmarkConfig) :
    (n.cpuTest = none → (updateConfig c n).cpuTest = c.cpuTest)
    ∧ (∀ sec, n.cpuTest = some sec → (updateConfig c n).cpuTest = sec)
    ∧ (n.memoryTest = none → (updateConfig c n).memoryTest = c.memoryTest)
    ∧ (∀ sec, n.memoryTest = some sec → (updateConfig c n).memoryTest = sec)
    ∧ (n.storageTest = none → (updateConfig c n).storageTest = c.storageTest)
    ∧ (∀ sec, n.storageTest = some sec → (updateConfig c n).storageTest = sec)
    ∧ (∀ sec, n.cpuTest = some sec → sec.duration = none →
        (updateConfig c n).cpuTest.duration = none) :=
  ⟨fun h => by simp [updateConfig, h],
   fun sec h => by simp [updateConfig, h],
   fun h => by simp [updateConfig, h],
   fun sec h => by simp [updateConfig, h],
   fun h => by simp [updateConfig, h],
   fun sec h => by simp [updateConfig, h],
   fun sec h hd => by simp [updateConfig, h, hd]⟩

/-- C9 witness. Applying the merge of the default store configuration
with a patch that supplies only a CPU section omitting the duration
field. -/
theorem c9_update_config_shallow_merge_witness :
    (updateConfig storeCfg cfgPatch).cpuTest
      = { enabled := some true, duration := none, threadCount := some 4 }
    ∧ (updateConfig storeCfg cfgPatch).memoryTest = storeCfg.memoryTest
    ∧ (updateConfig storeCfg cfgPatch).cpuTest.duration = none := by
  have h := c9_update_config_shallow_merge storeCfg cfgPatch
  exact ⟨h.2.1 _ rfl, h.2.2.1 rfl, h.2.2.2.2.2.2 _ rfl rfl⟩

/-- C7. Spec-modelled runner: signalling cancellation does not itself
change the status of a running session, the session is not Cancelled at
the moment the cancel call returns, it becomes Cancelled at the next
checkpoint slice, and a step produces Cancelled only from an already
cancelled runner or one whose cancellation flag was observed set. -/
theorem c7_cancellation_cooperative (r : RunnerState)
    (h : r.status = TestStatus.Running) :
    (signalCancel r).status = TestStatus.Running
    ∧ (signalCancel r).status ≠ TestStatus.Cancelled
    ∧ (runnerStep (signalCancel r)).status = TestStatus.Cancelled
    ∧ (∀ q : RunnerState, (runnerStep q).status = TestStatus.Cancelled →
        q.status = TestStatus.Cancelled ∨ q.cancelRequested = true) := by
  refine ⟨by simp [signalCancel, h], by simp [signalCancel, h], ?_, ?_⟩
  · simp [runnerStep, signalCancel, h]
  · intro q hq
    by_cases h1 : q.status = TestStatus.Running
    · cases hc : q.cancelRequested
      · by_cases hr : q.remainingSlices = 0 <;>
          simp [runnerStep, h1, hc, hr] at hq
      · exact Or.inr rfl
    · rw [runnerStep, if_neg h1] at hq
      exact Or.inl hq

/-- C7 witness. A concrete running runner stays Running when cancel
returns and is Cancelled one checkpoint later. -/
theorem c7_cancellation_cooperative_witness :
    (signalCancel runningRunner).status = TestStatus.Running
    ∧ (runnerStep (signalCancel runningRunner)).status
        = TestStatus.Cancelled := by
  have h := c7_cancellation_cooperative runningRunner rfl
  exact ⟨h.1, h.2.2.1⟩

/-- C8. The real-time performance buffer is bounded and session-filtered:
starting from a state holding at most 100 entries, processing any
real-time-performance event leaves at most 100 entries, an event for a
different session leaves the state unchanged, and a matching event leaves
exactly the most recent entries of the appended list. -/
theorem c8_performance_buffer_bounded (s : UseBenchmarkState)
    (d : RealTimePerformanceData) (h : s.performanceData.length ≤ 100) :
    (handleEvent s (FrontEvent.realtime d)).performanceData.length ≤ 100
    ∧ (s.currentSession ≠ some d.session_id →
        handleEvent s (FrontEvent.realtime d) = s)
    ∧ (s.currentSession = some d.session_id →
        (handleEvent s (FrontEvent.realtime d)).performanceData
          = lastN 100 (s.performanceData ++ [d])) := by
  by_cases hm : s.currentSession = some d.session_id
  · by_cases hl : 100 < (s.performanceData ++ [d]).length
    · refine ⟨?_, fun hc => absurd hm hc, fun _ => ?_⟩
      · simp only [handleEvent, handleRealTimePerformance, if_pos hm,
          if_pos hl, List.length_drop]
        omega
      · simp only [handleEvent, handleRealTimePerformance, if_pos hm,
          if_pos hl, lastN]
    · refine ⟨?_, fun hc => absurd hm hc, fun _ => ?_⟩
      · simp only [handleEvent, handleRealTimePerformance, if_pos hm,
          if_neg hl]
        omega
      · simp only [handleEvent, handleRealTimePerformance, if_pos hm,
          if_neg hl, lastN]
        rw [show (s.performanceData ++ [d]).length - 100 = 0 from by omega,
          List.drop_zero]
  · exact ⟨by simp [handleEvent, handleRealTimePerformance, hm, h],
      fun _ => by simp [handleEvent, handleRealTimePerformance, hm],
      fun hc => absurd hc hm⟩

/-- C8 witness. Processing a matching performance event in a concrete
state keeps the buffer bounded and equal to the recent suffix of the
appended list. -/
theorem c8_performance_buffer_bounded_witness :
    (handleEvent exRunning (FrontEvent.realtime perfSample)).performanceData.length
        ≤ 100
    ∧ (handleEvent exRunning (FrontEvent.realtime perfSample)).performanceData
        = lastN 100 (exRunning.performanceData ++ [perfSample]) := by
  have h := c8_performance_buffer_bounded exRunning perfSample (by decide)
  exact ⟨h.1, h.2.2 (by decide)⟩

/-- C1. The claim states terminal statuses are sinks; they are not: with
the displayed status Completed for the current session, a subsequently
received test-error event for that session overwrites it with Failed. -/
theorem c1_terminal_not_sink_counterexample :
    exCompleted.testStatus = TestStatus.Completed
    ∧ (handleEvent exCompleted (FrontEvent.testError failPayload)).testStatus
        = TestStatus.Failed
    ∧ TestStatus.Failed ≠ TestStatus.Completed := by
  decide

/-- C1 amended. A terminal status is preserved by every event that is not
a matching failure or suite-completion event, by cancel when no session is
current or when the command fails, and by pause and resume; it is not a
sink in general, since cleanup resets the status to Pending and matching
completion or failure events, a successful cancel and a successful start
overwrite it. -/
theorem c1_terminal_preservation_amended (s : UseBenchmarkState)
    (_hterm : s.testStatus.isTerminal = true) :
    (∀ e : FrontEvent, statusAffectingEvent s.currentSession e = false →
        (handleEvent s e).testStatus = s.testStatus)
    ∧ (s.currentSession = none →
        ∀ res, (UseBenchmark.cancelBenchmark s res).1 = s)
    ∧ (∀ err : JsValue,
        (UseBenchmark.cancelBenchmark s (Except.error err)).1.testStatus
          = s.testStatus)
    ∧ (∀ res, (UseBenchmark.pauseBenchmark s res).1.testStatus = s.testStatus)
    ∧ (∀ res, (UseBenchmark.resumeBenchmark s res).1.testStatus = s.testStatus)
    ∧ (UseBenchmark.cleanup s).testStatus = TestStatus.Pending := by
  refine ⟨fun e he => handleEvent_status_not_affecting s e he, ?_, ?_, ?_, ?_, rfl⟩
  · intro hcs res
    simp [UseBenchmark.cancelBenchmark, hcs]
  · intro err
    cases hcs : s.currentSession <;>
      simp [UseBenchmark.cancelBenchmark, hcs]
  · intro res
    cases hcs : s.currentSession <;> cases res <;>
      simp [UseBenchmark.pauseBenchmark, hcs]
  · intro res
    cases hcs : s.currentSession <;> cases res <;>
      simp [UseBenchmark.resumeBenchmark, hcs]

/-- C1 witness. In a concrete Completed state, a monitoring event and a
successful pause leave the terminal status in place. -/
theorem c1_terminal_preservation_witness :
    (handleEvent exCompleted (FrontEvent.monitoring monSample)).testStatus
        = exCompleted.testStatus
    ∧ (UseBenchmark.pauseBenchmark exCompleted (Except.ok ())).1.testStatus
        = exCompleted.testStatus := by
  have h := c1_terminal_preservation_amended exCompleted (by decide)
  exact ⟨h.1 _ (by decide), h.2.2.2.1 _⟩

/-- C2. Spec-modelled suite aggregation: when at least one enabled
subsystem succeeds, folding the emitted per-subsystem test-complete
events followed by the suite-complete event through the composable
handlers ends with status Completed, in particular not Failed, even if
some subsystem reported success false along the way. -/
theorem c2_suite_not_failed_with_partial_success (s : UseBenchmarkState)
    (sid : String) (outcomes : List SubsystemOutcome) (r : TestResults)
    (hs : s.currentSession = some sid)
    (hsucc : (outcomes.any fun o => o.success) = true) :
    ((suiteEvents sid outcomes r).foldl handleEvent s).testStatus
        = TestStatus.Completed
    ∧ ((suiteEvents sid outcomes r).foldl handleEvent s).testStatus
        ≠ TestStatus.Failed := by
  have hcs : ((outcomes.map fun o =>
      FrontEvent.testComplete
        { session_id := sid, test_type := o.testType, success := o.success,
          result := none, error := o.errMsg }).foldl handleEvent s).currentSession
      = some sid := by
    rw [foldl_handleEvent_currentSession]; exact hs
  have hfin : ((suiteEvents sid outcomes r).foldl handleEvent s).testStatus
      = TestStatus.Completed := by
    unfold suiteEvents
    rw [List.foldl_append, List.foldl_cons, List.foldl_nil]
    simp only [handleEvent, handleBenchmarkComplete, hcs, if_pos rfl, hsucc,
      if_pos trivial, Option.isSome_some, Bool.and_true, if_true]
  exact ⟨hfin, by rw [hfin]; decide⟩

/-- C2 witness. With the CPU subsystem failing and the memory subsystem
succeeding in a concrete running session, the final status is
Completed. -/
theorem c2_suite_not_failed_witness :
    ((suiteEvents "s1" outcomesSample resultsSample).foldl handleEvent
        exRunning).testStatus = TestStatus.Completed := by
  exact (c2_suite_not_failed_with_partial_success exRunning "s1"
    outcomesSample resultsSample rfl (by decide)).1

/-- C3. The claim states cancel leaves a terminal status unchanged; it
does not: on a session displayed Completed, a cancel whose command
succeeds, which the specification guarantees for a terminal session
because cancel is a no-op there, overwrites the status with Cancelled. -/
theorem c3_cancel_overwrites_completed_counterexample :
    exCompleted.testStatus = TestStatus.Completed
    ∧ (UseBenchmark.cancelBenchmark exCompleted (Except.ok ())).1.testStatus
        = TestStatus.Cancelled
    ∧ TestStatus.Cancelled ≠ TestStatus.Completed := by
  decide

/-- C3 amended. Cancel never throws, is a no-op with no current session,
calling it twice with a succeeding command equals calling it once, and it
leaves a Cancelled status unchanged; however a successful cancel
overwrites a Completed or Failed displayed status with Cancelled. -/
theorem c3_cancel_idempotent_amended (s : UseBenchmarkState)
    (res : Except JsValue Unit) :
    (UseBenchmark.cancelBenchmark s res).2 = none
    ∧ (s.currentSession = none → (UseBenchmark.cancelBenchmark s res).1 = s)
    ∧ (UseBenchmark.cancelBenchmark
        (UseBenchmark.cancelBenchmark s (Except.ok ())).1 (Except.ok ())).1
        = (UseBenchmark.cancelBenchmark s (Except.ok ())).1
    ∧ (s.testStatus = TestStatus.Cancelled →
        (UseBenchmark.cancelBenchmark s (Except.ok ())).1.testStatus
          = s.testStatus) := by
  refine ⟨?_, ?_, ?_, ?_⟩
  · cases hcs : s.currentSession <;> cases res <;>
      simp [UseBenchmark.cancelBenchmark, hcs]
  · intro hcs
    simp [UseBenchmark.cancelBenchmark, hcs]
  · cases hcs : s.currentSession <;>
      simp [UseBenchmark.cancelBenchmark, hcs]
  · intro hst
    cases hcs : s.currentSession <;>
      simp [UseBenchmark.cancelBenchmark, hcs, hst]

/-- C3 witness. On a concrete Cancelled session, a second successful
cancel throws nothing and leaves the status Cancelled. -/
theorem c3_cancel_idempotent_witness :
    (UseBenchmark.cancelBenchmark exCancelled (Except.ok ())).2 = none
    ∧ (UseBenchmark.cancelBenchmark exCancelled (Except.ok ())).1.testStatus
        = exCancelled.testStatus := by
  have h := c3_cancel_idempotent_amended exCancelled (Except.ok ())
  exact ⟨h.1, h.2.2.2 rfl⟩

/-- C4. The claim states a failing session-control command makes the call
complete exceptionally; it does not at the composable layer: pause on a
running session whose command is rejected with a session-not-found error
throws nothing and completes normally, storing the message instead. -/
theorem c4_pause_swallows_error_counterexample :
    (UseBenchmark.pauseBenchmark exRunning (Except.error notFoundErr)).2 = none
    ∧ (UseBenchmark.pauseBenchmark exRunning (Except.error notFoundErr)).1.error
        = some notFoundErr := by
  decide

/-- C4 amended. Session-control errors are synchronous at the service
layer, whose cancel, pause, resume and status methods return the rejected
command outcome directly to their caller; the composable wrappers instead
catch the error, store the converted message in the error ref and complete
normally. -/
theorem c4_error_propagation_amended (e : JsValue) (s : UseBenchmarkState) :
    TauriApiService.cancelBenchmark (Except.error e) = Except.error e
    ∧ TauriApiService.pauseBenchmark (Except.error e) = Except.error e
    ∧ TauriApiService.resumeBenchmark (Except.error e) = Except.error e
    ∧ TauriApiService.getTestStatus (Except.error e) = Except.error e
    ∧ (s.currentSession.isSome = true →
        (UseBenchmark.pauseBenchmark s (Except.error e)).2 = none
        ∧ (UseBenchmark.pauseBenchmark s (Except.error e)).1.error
            = some (handleTauriError e)
        ∧ (UseBenchmark.cancelBenchmark s (Except.error e)).2 = none
        ∧ (UseBenchmark.cancelBenchmark s (Except.error e)).1.error
            = some (handleTauriError e)
        ∧ (UseBenchmark.resumeBenchmark s (Except.error e)).2 = none
        ∧ (UseBenchmark.resumeBenchmark s (Except.error e)).1.error
            = some (handleTauriError e)) := by
  refine ⟨rfl, rfl, rfl, rfl, ?_⟩
  intro hcs
  cases h : s.currentSession with
  | none => rw [h] at hcs; cases hcs
  | some t =>
      refine ⟨?_, ?_, ?_, ?_, ?_, ?_⟩ <;>
        simp [UseBenchmark.pauseBenchmark, UseBenchmark.cancelBenchmark,
          UseBenchmark.resumeBenchmark, h]

/-- C4 witness. At a concrete running session and rejection value, the
service call rejects while the composable pause stores the message and
throws nothing. -/
theorem c4_error_propagation_witness :
    TauriApiService.pauseBenchmark (Except.error notFoundErr)
        = Except.error notFoundErr
    ∧ (UseBenchmark.pauseBenchmark exRunning (Except.error notFoundErr)).1.error
        = some (handleTauriError notFoundErr) := by
  have h := c4_error_propagation_amended notFoundErr exRunning
  exact ⟨h.2.1, (h.2.2.2.2 (by decide)).2.1⟩

/-- C5. The claim states the test-error handler produces exactly the same
state as the test-complete handler on any matching unsuccessful payload;
it does not when the payload carries no error message, because the two
fallback strings differ. -/
theorem c5_fallback_message_counterexample :
    (handleTestError exRunning failPayload).testStatus = TestStatus.Failed
    ∧ (handleTestComplete exRunning failPayload).testStatus = TestStatus.Failed
    ∧ (handleTestError exRunning failPayload).error
        = some (JsValue.str "测试出现错误")
    ∧ (handleTestComplete exRunning failPayload).error
        = some (JsValue.str "测试失败")
    ∧ handleTestError exRunning failPayload
        ≠ handleTestComplete exRunning failPayload := by
  decide

/-- C5 amended. For a matching unsuccessful payload both handlers set the
status to Failed, and whenever the payload carries a non-empty error
message they produce exactly the same state; the handlers differ only in
the fallback message stored when the payload has no usable error
string. -/
theorem c5_test_error_alias_amended (s : UseBenchmarkState)
    (d : TestCompleteEvent) (hm : s.currentSession = some d.session_id)
    (hf : d.success = false) :
    (handleTestError s d).testStatus = TestStatus.Failed
    ∧ (handleTestComplete s d).testStatus = TestStatus.Failed
    ∧ (∀ m, d.error = some m → m ≠ "" →
        handleTestError s d = handleTestComplete s d) := by
  refine ⟨?_, ?_, ?_⟩
  · simp [handleTestError, hm]
  · simp [handleTestComplete, hm, hf]
  · intro m hme hne
    simp [handleTestError, handleTestComplete, hm, hf, jsOrStr, hme, hne]

/-- C5 witness. On a concrete matching failing payload with a non-empty
message, the two handlers agree and both mark the session Failed. -/
theorem c5_test_error_alias_witness :
    handleTestError exRunning failPayloadMsg
        = handleTestComplete exRunning failPayloadMsg
    ∧ (handleTestError exRunning failPayloadMsg).testStatus
        = TestStatus.Failed := by
  have h := c5_test_error_alias_amended exRunning failPayloadMsg rfl rfl
  exact ⟨h.2.2 _ rfl (by decide), h.1⟩

/-- C6. Overall progress is monotonic across the delivered stream: if the
overall percentages of the progress events matching the current session
are non-decreasing from the recorded starting value, as the specification
guarantees for the emitted stream including across a pause and resume,
then the recorded overall progress along the whole processed trace never
decreases. -/
theorem c6_progress_monotone (s : UseBenchmarkState) (es : List FrontEvent)
    (h : List.Chain' (· ≤ ·)
      (s.progress.overall :: matchingOverall s.currentSession es)) :
    List.Chain' (· ≤ ·)
      ((List.scanl handleEvent s es).map fun st => st.progress.overall) := by
  induction es generalizing s with
  | nil =>
      simp [List.scanl]
  | cons e es ih =>
      rw [List.scanl_cons, List.singleton_append, List.map_cons,
        List.chain'_cons']
      constructor
      · intro b hb
        rw [List.head?_map, scanl_handleEvent_head] at hb
        simp only [Option.map_some', Option.mem_def, Option.some.injEq] at hb
        subst hb
        rw [handleEvent_overall]
        cases e with
        | progress d =>
            by_cases hmz : s.currentSession = some d.session_id
            · simp only [hmz, if_pos rfl]
              have : matchingOverall s.currentSession
                  (FrontEvent.progress d :: es)
                  = d.overall_progress :: matchingOverall s.currentSession es := by
                simp [matchingOverall, List.filterMap_cons, hmz]
              rw [this] at h
              exact (List.chain'_cons.mp h).1
            · simp [hmz]
        | monitoring d => simp
        | realtime d => simp
        | warning d => simp
        | testComplete d => simp
        | benchmarkComplete d => simp
        | testError d => simp
      · apply ih
        have hcs := handleEvent_currentSession s e
        have hov := handleEvent_overall s e
        cases e with
        | progress d =>
            by_cases hmz : s.currentSession = some d.session_id
            · have hm : matchingOverall s.currentSession
                  (FrontEvent.progress d :: es)
                  = d.overall_progress :: matchingOverall s.currentSession es := by
                simp [matchingOverall, List.filterMap_cons, hmz]
              rw [hm] at h
              rw [hcs]
              have hov2 : (handleEvent s (FrontEvent.progress d)).progress.overall
                  = d.overall_progress := by
                rw [hov]; simp [hmz]
              rw [hov2]
              exact (List.chain'_cons.mp h).2
            · have hm : matchingOverall s.currentSession
                  (FrontEvent.progress d :: es)
                  = matchingOverall s.currentSession es := by
                simp [matchingOverall, List.filterMap_cons, hmz]
              rw [hm] at h
              rw [hcs]
              have hov2 : (handleEvent s (FrontEvent.progress d)).progress.overall
                  = s.progress.overall := by
                rw [hov]; simp [hmz]
              rw [hov2]
              exact h
        | monitoring d =>
            rw [hcs, hov]
            simpa [matchingOverall, List.filterMap_cons] using h
        | realtime d =>
            rw [hcs, hov]
            simpa [matchingOverall, List.filterMap_cons] using h
        | warning d =>
            rw [hcs, hov]
            simpa [matchingOverall, List.filterMap_cons] using h
        | testComplete d =>
            rw [hcs, hov]
            simpa [matchingOverall, List.filterMap_cons] using h
        | benchmarkComplete d =>
            rw [hcs, hov]
            simpa [matchingOverall, List.filterMap_cons] using h
        | testError d =>
            rw [hcs, hov]
            simpa [matchingOverall, List.filterMap_cons] using h

/-- C6 witness. A concrete stream with overall progress ten then fifty,
delivered around a pause and resume, yields a non-decreasing recorded
trace from the initial zero. -/
theorem c6_progress_monotone_witness :
    List.Chain' (· ≤ ·)
      ((List.scanl handleEvent exRunning
        [FrontEvent.progress progSample1,
         FrontEvent.progress progSample2]).map fun st => st.progress.overall) := by
  apply c6_progress_monotone
  simp only [exRunning, baseState, matchingOverall, List.filterMap_cons,
    List.filterMap_nil, progSample1, progSample2]
  norm_num [List.chain'_cons, List.chain'_singleton]
